import Mathlib

/-!
Verification of the topic-routed in-memory state aggregator implemented by
`IoTDeviceManager` in `src/iot-service/device_manager.py`.

Shallow embedding conventions:
- JSON values (the results of `json.loads`) are embedded as the first-order
  inductive type `Value`; JSON arrays and objects are encoded as cons chains
  (`vnil`/`vcons`, `onil`/`ocons`) so that decidable equality is derivable.
  Python `None` is `Value.null`; JSON numbers are embedded as `Int`.
- A top-level parsed payload (always a JSON object in the protocol) is a
  `PyDict`, an insertion-ordered association list, mirroring a Python dict.
  `dget d k` is Python `d.get(k)` (default `None`); `dset` is `d[k] = v`
  (in-place overwrite of an existing key, append of a fresh key);
  `dupdate` is `d.update(p)`.
- A device record is the structure `DeviceRecord`, one field per key of the
  dict literal built by `_handle_device_discovery`. The keys `battery`,
  `signal_strength` and `last_update` are not present in that literal and are
  only ever written; they are embedded with initial value `Value.null`,
  which is also what a Python reader of the optional field observes via
  `.get` when the key is missing.
- The ambient wall clock `datetime.now().isoformat()` is threaded as an
  opaque string parameter `now`.
- A raw inbound message is `Option PyDict`: `none` embeds a payload on which
  `json.loads` (or `.decode()`) raises, `some payload` a successfully parsed
  body. Exception flow of `_on_message` (whose whole body sits inside
  `try ... except Exception`) is made explicit: `on_message` returns a
  `MsgResult` whose `caught` flag records that the except branch ran.
- Registered callbacks are embedded as `Callback`: an identifying tag plus a
  boolean predicate telling on which (topic, payload) inputs the callback
  raises. Invocations are recorded in an effect trace, as are `subscribe`
  and `publish` calls issued to the MQTT client.
- Python object equality used by dict key lookup is embedded as structural
  decidable equality on `Value`. (The CPython quirks this abstracts from,
  such as `True == 1` or unhashable keys, are never exercised by the
  protocol, whose device ids are strings.)
-/

inductive Value where
  | null
  | bool (b : Bool)
  | int (n : Int)
  | str (s : String)
  | vnil
  | vcons (hd tl : Value)
  | onil
  | ocons (key : String) (val tl : Value)
deriving DecidableEq, Repr

abbrev PyDict := List (String × Value)

/-- Python truthiness (`bool(v)`) for embedded JSON values. -/
def Value.truthy : Value → Bool
  | .null => false
  | .bool b => b
  | .int n => n != 0
  | .str s => !(s == "")
  | .vnil => false
  | .vcons _ _ => true
  | .onil => false
  | .ocons _ _ _ => true

mutual
/-- Python `repr(v)` for embedded values, used by f-string interpolation of
non-string values. String escaping inside the quotes is not modelled; the
aggregator only ever interpolates device ids, which are plain strings in the
protocol and are rendered by `pyStr` without touching `pyRepr`. -/
def pyRepr : Value → String
  | .null => "None"
  | .bool true => "True"
  | .bool false => "False"
  | .int n => toString n
  | .str s => "\x27" ++ s ++ "\x27"
  | .vnil => "[]"
  | .vcons h t => "[" ++ pyRepr h ++ pyReprListTail t
  | .onil => "\x7b\x7d"
  | .ocons k v t => "\x7b\x27" ++ k ++ "\x27: " ++ pyRepr v ++ pyReprObjTail t

def pyReprListTail : Value → String
  | .vcons h t => ", " ++ pyRepr h ++ pyReprListTail t
  | _ => "]"

def pyReprObjTail : Value → String
  | .ocons k v t => ", \x27" ++ k ++ "\x27: " ++ pyRepr v ++ pyReprObjTail t
  | _ => "\x7d"
end

/-- Python `str(v)`, as used by f-string interpolation. -/
def pyStr : Value → String
  | .str s => s
  | v => pyRepr v

/-- First-match association list lookup: Python `d[k]` / `k in d` on a dict
whose keys are unique. -/
def alookup {α β : Type} [DecidableEq α] : List (α × β) → α → Option β
  | [], _ => none
  | (k2, v) :: rest, k => if k2 = k then some v else alookup rest k

/-- Python `d[k] = v`: overwrite in place if the key exists, append it
otherwise (insertion order preserved). -/
def aset {α β : Type} [DecidableEq α] : List (α × β) → α → β → List (α × β)
  | [], k, v => [(k, v)]
  | (k2, v2) :: rest, k, v =>
    if k2 = k then (k2, v) :: rest else (k2, v2) :: aset rest k v

/-- Python `d.get(k)` (missing key yields `None`). -/
def dget (d : PyDict) (k : String) : Value :=
  (alookup d k).getD .null

/-- Python `d.get(k, dflt)`. -/
def dgetD (d : PyDict) (k : String) (dflt : Value) : Value :=
  (alookup d k).getD dflt

/-- Python `d.update(p)`: upsert every pair of `p` into `d`, in order. -/
def dupdate (d : PyDict) : PyDict → PyDict
  | [] => d
  | (k, v) :: rest => dupdate (aset d k v) rest

/-- Python `s.split(sep)` on the character list of a string. -/
def pySplitChars (sep : Char) : List Char → List (List Char)
  | [] => [[]]
  | c :: rest =>
    let r := pySplitChars sep rest
    if c = sep then [] :: r
    else
      match r with
      | [] => [[c]]
      | h :: t => (c :: h) :: t

/-- Python `s.split(sep)` for a single-character separator. -/
def pySplit (sep : Char) (s : String) : List String :=
  (pySplitChars sep s.data).map String.mk

/-- Python `s.startswith(pre)`. -/
def pyStartsWith (s pre : String) : Bool :=
  List.isPrefixOf pre.data s.data

/-- Python `s.endswith(suf)`. -/
def pyEndsWith (s suf : String) : Bool :=
  List.isSuffixOf suf.data s.data

/-- One device record: the dict literal created at lines 97-108 of
`device_manager.py`, plus the three keys written later by the state and
status handlers (`last_update`, `battery`, `signal_strength`), embedded with
initial value `null` (the dict literal does not contain them; a `.get` read
of the missing key would yield `None`). -/
structure DeviceRecord where
  id : Value
  type : Value
  name : Value
  capabilities : Value
  manufacturer : Value
  model : Value
  firmware_version : Value
  discovered_at : Value
  online : Value
  state : PyDict
  battery : Value
  signal_strength : Value
  last_update : Value
deriving DecidableEq, Repr

/-- A callback handle registered via `subscribe_to_topic`: `cid` identifies
the Python callable, `fails` tells on which (topic, payload) arguments
invoking it raises an exception. -/
structure Callback where
  cid : Nat
  fails : String → PyDict → Bool

/-- The mutable state owned by `IoTDeviceManager`: `self.devices` (keyed by
the device id value taken from the discovery payload) and `self.callbacks`
(keyed by exact topic string, each entry an insertion-ordered list). -/
structure AggState where
  devices : List (Value × DeviceRecord)
  callbacks : List (String × List Callback)

/-- Outcome of `_on_message` on one inbound MQTT message: the state after
the handler, the `client.subscribe` calls issued, the callback invocations
performed (tag, topic, payload), and whether the outer
`except Exception` branch ran. -/
structure MsgResult where
  state : AggState
  subs : List String
  calls : List (Nat × String × PyDict)
  caught : Bool

/-- `_handle_device_discovery` (lines 90-113). Returns the new registry and
the `client.subscribe` calls issued. -/
def handle_device_discovery (now : String) (devices : List (Value × DeviceRecord))
    (_topic : String) (payload : PyDict) : List (Value × DeviceRecord) × List String :=
  let device_id := dget payload "device_id"
  let device_type := dget payload "type"
  let device_name := dget payload "name"
  if device_id.truthy && (alookup devices device_id).isNone then
    (aset devices device_id
      ⟨device_id, device_type, device_name,
       (alookup payload "capabilities").getD .vnil,
       dget payload "manufacturer",
       dget payload "model",
       dget payload "firmware_version",
       .str now, .bool true, [], .null, .null, .null⟩,
     ["smarthome/devices/" ++ pyStr device_id ++ "/#"])
  else
    (devices, [])

/-- `_handle_device_state_update` (lines 115-120): merge the payload into
`state` and stamp `last_update` when the id is registered, no-op otherwise. -/
def handle_device_state_update (now : String) (devices : List (Value × DeviceRecord))
    (device_id : String) (payload : PyDict) : List (Value × DeviceRecord) :=
  match alookup devices (.str device_id) with
  | some rec =>
      aset devices (.str device_id)
        ⟨rec.id, rec.type, rec.name, rec.capabilities, rec.manufacturer,
         rec.model, rec.firmware_version, rec.discovered_at, rec.online,
         dupdate rec.state payload, rec.battery, rec.signal_strength, .str now⟩
  | none => devices

/-- `_handle_device_status` (lines 122-128): wholesale-replace `online`
(default `False`), `battery` and `signal_strength` when the id is
registered, no-op otherwise. -/
def handle_device_status (devices : List (Value × DeviceRecord))
    (device_id : String) (payload : PyDict) : List (Value × DeviceRecord) :=
  match alookup devices (.str device_id) with
  | some rec =>
      aset devices (.str device_id)
        ⟨rec.id, rec.type, rec.name, rec.capabilities, rec.manufacturer,
         rec.model, rec.firmware_version, rec.discovered_at,
         dgetD payload "online" (.bool false),
         rec.state,
         dget payload "battery",
         dget payload "signal_strength",
         rec.last_update⟩
  | none => devices

/-- Which built-in branch the if/elif chain of `_on_message` (lines 68-80)
selects for a topic. For the state and status branches the device id is the
third slash-delimited segment of the topic; `none` embeds the `IndexError`
raised by `topic.split('/')[2]` when that segment does not exist. -/
inductive TopicKind where
  | discovery
  | stateUpdate (device_id : Option String)
  | statusUpdate (device_id : Option String)
  | other
deriving DecidableEq, Repr

/-- The third slash-delimited segment of a topic (`topic.split('/')[2]`). -/
def thirdSegment (topic : String) : Option String :=
  (pySplit '/' topic).get? 2

/-- Topic classification: the if/elif chain of `_on_message`, first match
wins. -/
def classify (topic : String) : TopicKind :=
  if pyStartsWith topic "smarthome/discovery/" then .discovery
  else if pyEndsWith topic "/state" then .stateUpdate (thirdSegment topic)
  else if pyEndsWith topic "/status" then .statusUpdate (thirdSegment topic)
  else .other

/-- The built-in handler phase of `_on_message` (lines 68-80): run the
selected handler on the parsed payload. `none` embeds an exception escaping
this phase (the `IndexError` of the device id extraction), which the outer
`except` block then catches. Returns the updated state and the subscribe
calls issued. -/
def runBuiltin (now : String) (st : AggState) (topic : String) (payload : PyDict) :
    Option (AggState × List String) :=
  match classify topic with
  | .discovery =>
      let r := handle_device_discovery now st.devices topic payload
      some (⟨r.1, st.callbacks⟩, r.2)
  | .stateUpdate none => none
  | .stateUpdate (some did) =>
      some (⟨handle_device_state_update now st.devices did payload, st.callbacks⟩, [])
  | .statusUpdate none => none
  | .statusUpdate (some did) =>
      some (⟨handle_device_status st.devices did payload, st.callbacks⟩, [])
  | .other => some (st, [])

/-- The callback loop of `_on_message` (lines 83-85): invoke each registered
callback in order; a raising callback ends the loop (its exception escapes
to the outer `except`). Returns the invocation trace and whether an
exception escaped the loop. -/
def runCallbacks : List Callback → String → PyDict → List (Nat × String × PyDict) × Bool
  | [], _, _ => ([], false)
  | c :: rest, topic, payload =>
    if c.fails topic payload then ([(c.cid, topic, payload)], true)
    else
      let r := runCallbacks rest topic payload
      ((c.cid, topic, payload) :: r.1, r.2)

/-- `_on_message` (lines 60-88). `raw = none` embeds a message body on which
parsing raises; the whole body is a `try` whose `except Exception` branch is
recorded by the `caught` flag. -/
def on_message (now : String) (st : AggState) (topic : String) (raw : Option PyDict) :
    MsgResult :=
  match raw with
  | none => ⟨st, [], [], true⟩
  | some payload =>
    match runBuiltin now st topic payload with
    | none => ⟨st, [], [], true⟩
    | some (st2, subs) =>
      match alookup st2.callbacks topic with
      | none => ⟨st2, subs, [], false⟩
      | some cbs =>
        let r := runCallbacks cbs topic payload
        ⟨st2, subs, r.1, r.2⟩

/-- One inbound event of the message stream: ambient clock reading, topic,
and parsed-or-malformed body. -/
structure Event where
  now : String
  topic : String
  raw : Option PyDict

/-- The inbound message stream, processed in arrival order; accumulates the
subscribe calls and callback invocations of every event. -/
def processEvents (st : AggState) :
    List Event → AggState × List String × List (Nat × String × PyDict)
  | [] => (st, [], [])
  | e :: rest =>
    let r := on_message e.now st e.topic e.raw
    let r2 := processEvents r.state rest
    (r2.1, r.subs ++ r2.2.1, r.calls ++ r2.2.2)

/-- `control_device` (lines 140-155). Returns the (unmodified) state, the
`client.publish` calls issued, and either `ok True` or the raised
`ValueError`. -/
def control_device (now : String) (st : AggState) (device_id command params : Value) :
    AggState × List (String × PyDict) × Except String Bool :=
  if (alookup st.devices device_id).isNone then
    (st, [], .error ("Device " ++ pyStr device_id ++ " not found"))
  else
    (st,
     [("smarthome/devices/" ++ pyStr device_id ++ "/command",
       [("command", command),
        ("params", if params.truthy then params else .onil),
        ("timestamp", .str now)])],
     .ok true)

/-- `turn_on` (lines 157-159): `control_device(device_id, 'turn_on')`,
params defaulting to `None`. -/
def turn_on (now : String) (st : AggState) (device_id : Value) :
    AggState × List (String × PyDict) × Except String Bool :=
  control_device now st device_id (.str "turn_on") .null

/-- `turn_off` (lines 161-163). -/
def turn_off (now : String) (st : AggState) (device_id : Value) :
    AggState × List (String × PyDict) × Except String Bool :=
  control_device now st device_id (.str "turn_off") .null

/-- `set_brightness` (lines 165-167); the value is passed through
uninterpreted. -/
def set_brightness (now : String) (st : AggState) (device_id brightness : Value) :
    AggState × List (String × PyDict) × Except String Bool :=
  control_device now st device_id (.str "set_brightness") (.ocons "brightness" brightness .onil)

/-- `set_color` (lines 169-171). -/
def set_color (now : String) (st : AggState) (device_id color : Value) :
    AggState × List (String × PyDict) × Except String Bool :=
  control_device now st device_id (.str "set_color") (.ocons "color" color .onil)

/-- `set_temperature` (lines 173-175). -/
def set_temperature (now : String) (st : AggState) (device_id temperature : Value) :
    AggState × List (String × PyDict) × Except String Bool :=
  control_device now st device_id (.str "set_temperature") (.ocons "temperature" temperature .onil)

/-- `lock` (lines 177-179). -/
def lock (now : String) (st : AggState) (device_id : Value) :
    AggState × List (String × PyDict) × Except String Bool :=
  control_device now st device_id (.str "lock") .null

/-- `unlock` (lines 181-183). -/
def unlock (now : String) (st : AggState) (device_id : Value) :
    AggState × List (String × PyDict) × Except String Bool :=
  control_device now st device_id (.str "unlock") .null

/-- `create_scene` (lines 185-203): fire-and-forget publish to a fixed
topic. -/
def create_scene (now : String) (st : AggState) (scene_name device_states : Value) :
    AggState × List (String × PyDict) × Bool :=
  (st,
   [("smarthome/scenes/create",
     [("name", scene_name), ("devices", device_states), ("created_at", .str now)])],
   true)

/-- `activate_scene` (lines 205-216). -/
def activate_scene (now : String) (st : AggState) (scene_name : Value) :
    AggState × List (String × PyDict) × Bool :=
  (st,
   [("smarthome/scenes/activate",
     [("name", scene_name), ("timestamp", .str now)])],
   true)

/-- `create_automation` (lines 218-240). -/
def create_automation (now : String) (st : AggState)
    (automation_name trigger conditions actions : Value) :
    AggState × List (String × PyDict) × Bool :=
  (st,
   [("smarthome/automations/create",
     [("name", automation_name), ("trigger", trigger), ("conditions", conditions),
      ("actions", actions), ("created_at", .str now)])],
   true)

/-- `subscribe_to_topic` (lines 242-249): create the entry and issue a
`client.subscribe` only on first registration for the topic, then append the
callback. Returns the new state and the subscribe calls issued. -/
def subscribe_to_topic (st : AggState) (topic : String) (callback : Callback) :
    AggState × List String :=
  match alookup st.callbacks topic with
  | none => (⟨st.devices, aset st.callbacks topic [callback]⟩, [topic])
  | some cbs => (⟨st.devices, aset st.callbacks topic (cbs ++ [callback])⟩, [])

/-- `get_energy_usage` (lines 251-262): fire-and-forget publish. -/
def get_energy_usage (now : String) (st : AggState) (device_id : Value) :
    AggState × List (String × PyDict) × Bool :=
  (st,
   [("smarthome/energy/query",
     [("device_id", device_id), ("timestamp", .str now)])],
   true)

/-- `get_devices` (lines 130-134): all records, or those whose `type` field
equals the (truthy) filter. -/
def get_devices (st : AggState) (device_type : Value) : List (Value × DeviceRecord) :=
  if device_type.truthy then
    st.devices.filter (fun kv => kv.2.type = device_type)
  else
    st.devices

/-- `get_device` (lines 136-138). -/
def get_device (st : AggState) (device_id : Value) : Option DeviceRecord :=
  alookup st.devices device_id

theorem alookup_aset_self {α β : Type} [DecidableEq α] (d : List (α × β)) (k : α) (v : β) :
    alookup (aset d k v) k = some v := by
  induction d with
  | nil => simp [aset, alookup]
  | cons kv rest ih =>
      obtain ⟨k2, v2⟩ := kv
      by_cases h : k2 = k
      · simp [aset, alookup, h]
      · simp [aset, alookup, h, ih]

theorem alookup_aset_ne {α β : Type} [DecidableEq α] (d : List (α × β)) (k k2 : α) (v : β)
    (h : k2 ≠ k) : alookup (aset d k v) k2 = alookup d k2 := by
  have hne : k ≠ k2 := fun hh => h hh.symm
  induction d with
  | nil => simp [aset, alookup, hne]
  | cons kv rest ih =>
      obtain ⟨k3, v3⟩ := kv
      by_cases h3 : k3 = k
      · subst h3
        simp [aset, alookup, hne]
      · simp [aset, alookup, h3, ih]

theorem alookup_aset_isSome {α β : Type} [DecidableEq α] (d : List (α × β)) (k k2 : α) (v : β)
    (h : (alookup d k2).isSome = true) : (alookup (aset d k v) k2).isSome = true := by
  by_cases hk : k2 = k
  · subst hk
    rw [alookup_aset_self]
    rfl
  · rw [alookup_aset_ne _ _ _ _ hk]
    exact h

theorem alookup_dupdate_not_mem (p : PyDict) (d : PyDict) (k : String)
    (h : k ∉ p.map Prod.fst) : alookup (dupdate d p) k = alookup d k := by
  induction p generalizing d with
  | nil => rfl
  | cons kv rest ih =>
      obtain ⟨k1, v1⟩ := kv
      simp only [List.map_cons, List.mem_cons, not_or] at h
      rw [dupdate, ih _ h.2, alookup_aset_ne _ _ _ _ h.1]

theorem alookup_dupdate_mem (p : PyDict) (d : PyDict) (k : String) (v : Value)
    (hnd : (p.map Prod.fst).Nodup) (h : alookup p k = some v) :
    alookup (dupdate d p) k = some v := by
  induction p generalizing d with
  | nil => simp [alookup] at h
  | cons kv rest ih =>
      obtain ⟨k1, v1⟩ := kv
      simp only [List.map_cons, List.nodup_cons] at hnd
      rw [dupdate]
      by_cases hk : k1 = k
      · subst hk
        simp [alookup] at h
        rw [alookup_dupdate_not_mem _ _ _ hnd.1, alookup_aset_self, h]
      · simp only [alookup, if_neg hk] at h
        exact ih (aset d k1 v1) hnd.2 h

/-- C1: for an unregistered device id, `control_device` raises the
unknown-device `ValueError`, publishes nothing and leaves the state
untouched; for a registered id it publishes exactly one envelope with
exactly the keys command, params, timestamp to the per-device command topic
and returns True. -/
theorem c1_control_device (now : String) (st : AggState) (device_id command params : Value) :
    (alookup st.devices device_id = none →
      control_device now st device_id command params =
        (st, [], .error ("Device " ++ pyStr device_id ++ " not found"))) ∧
    (∀ rec, alookup st.devices device_id = some rec →
      control_device now st device_id command params =
        (st,
         [("smarthome/devices/" ++ pyStr device_id ++ "/command",
           [("command", command),
            ("params", if params.truthy then params else .onil),
            ("timestamp", .str now)])],
         .ok true) ∧
      ((control_device now st device_id command params).2.1.map
          (fun pub => pub.2.map Prod.fst)) = [["command", "params", "timestamp"]]) := by
  refine ⟨fun h => ?_, fun rec h => ⟨?_, ?_⟩⟩ <;> simp [control_device, h]

/-- C1 witness: a concrete unregistered id fails with the ValueError and no
publish; a concrete registered id publishes the three-key envelope. -/
theorem c1_control_device_witness :
    (control_device "t1" ⟨[], []⟩ (.str "d1") (.str "turn_on") .null =
      ((⟨[], []⟩ : AggState), [], .error ("Device " ++ pyStr (.str "d1") ++ " not found"))) ∧
    (control_device "t1"
        ⟨[((.str "d1"),
           ⟨.str "d1", .str "light", .null, .vnil, .null, .null, .null, .str "t0",
            .bool true, [], .null, .null, .null⟩)], []⟩
        (.str "d1") (.str "turn_on") .null =
      ((⟨[((.str "d1"),
           ⟨.str "d1", .str "light", .null, .vnil, .null, .null, .null, .str "t0",
            .bool true, [], .null, .null, .null⟩)], []⟩ : AggState),
       [("smarthome/devices/" ++ pyStr (.str "d1") ++ "/command",
         [("command", (.str "turn_on" : Value)),
          ("params", if (Value.null).truthy then (.null : Value) else .onil),
          ("timestamp", (.str "t1" : Value))])],
       .ok true)) :=
  ⟨(c1_control_device "t1" ⟨[], []⟩ (.str "d1") (.str "turn_on") .null).1 rfl,
   ((c1_control_device "t1"
      ⟨[((.str "d1"),
         ⟨.str "d1", .str "light", .null, .vnil, .null, .null, .null, .str "t0",
          .bool true, [], .null, .null, .null⟩)], []⟩
      (.str "d1") (.str "turn_on") .null).2
     ⟨.str "d1", .str "light", .null, .vnil, .null, .null, .null, .str "t0",
      .bool true, [], .null, .null, .null⟩ rfl).1⟩

/-- C5: topic classification is by first match in the fixed order
discovery-prefix, then state-suffix (device id = third slash-delimited
segment), then status-suffix, otherwise no built-in handler; a topic that
both starts with the discovery prefix and ends with a state or status
suffix is classified as discovery only. -/
theorem c5_topic_precedence (topic : String) :
    (pyStartsWith topic "smarthome/discovery/" = true → classify topic = .discovery) ∧
    (pyStartsWith topic "smarthome/discovery/" = false → pyEndsWith topic "/state" = true →
      classify topic = .stateUpdate (thirdSegment topic)) ∧
    (pyStartsWith topic "smarthome/discovery/" = false → pyEndsWith topic "/state" = false →
      pyEndsWith topic "/status" = true → classify topic = .statusUpdate (thirdSegment topic)) ∧
    (pyStartsWith topic "smarthome/discovery/" = false → pyEndsWith topic "/state" = false →
      pyEndsWith topic "/status" = false → classify topic = .other) ∧
    (pyStartsWith topic "smarthome/discovery/" = true →
      (pyEndsWith topic "/state" = true ∨ pyEndsWith topic "/status" = true) →
      classify topic = .discovery) := by
  refine ⟨?_, ?_, ?_, ?_, ?_⟩ <;> intros <;> simp_all [classify]

/-- C5 witness: a topic with both the discovery prefix and the state suffix
is classified as discovery; an ordinary state topic is classified as a state
update for its third segment. -/
theorem c5_topic_precedence_witness :
    classify "smarthome/discovery/a/state" = .discovery ∧
    classify "smarthome/devices/d1/state" = .stateUpdate (thirdSegment "smarthome/devices/d1/state") :=
  ⟨(c5_topic_precedence "smarthome/discovery/a/state").2.2.2.2 (by decide) (Or.inl (by decide)),
   (c5_topic_precedence "smarthome/devices/d1/state").2.1 (by decide) (by decide)⟩

/-- C8: an event whose body fails to parse is dropped inside the except
block: state (both registries) unchanged, no subscribe issued, no handler
run, no callback invoked, and the rest of the stream is processed exactly
as if the event had not occurred. -/
theorem c8_malformed_dropped (now : String) (st : AggState) (topic : String)
    (e : Event) (rest : List Event) (hraw : e.raw = none) :
    on_message now st topic none = ⟨st, [], [], true⟩ ∧
    processEvents st (e :: rest) = processEvents st rest := by
  refine ⟨rfl, ?_⟩
  obtain ⟨n, t, raw⟩ := e
  cases hraw
  simp [processEvents, on_message]

/-- C8 witness: a concrete malformed event between two streams. -/
theorem c8_malformed_dropped_witness :
    on_message "t0" ⟨[], []⟩ "x/y" none = ⟨⟨[], []⟩, [], [], true⟩ ∧
    processEvents ⟨[], []⟩ [⟨"t0", "x/y", none⟩] = processEvents ⟨[], []⟩ [] :=
  c8_malformed_dropped "t0" ⟨[], []⟩ "x/y" ⟨"t0", "x/y", none⟩ [] rfl

/-- C10: a discovery payload whose device_id is falsy (empty string, 0,
null, False, empty list or object) is treated exactly like one with no
device_id at all: no record is created, no subscription is issued, the
registry is unchanged. -/
theorem c10_falsy_device_id (now : String) (devices : List (Value × DeviceRecord))
    (topic : String) (payload p2 : PyDict)
    (h : (dget payload "device_id").truthy = false)
    (h2 : alookup p2 "device_id" = none) :
    handle_device_discovery now devices topic payload = (devices, []) ∧
    handle_device_discovery now devices topic p2 = (devices, []) := by
  constructor
  · simp [handle_device_discovery, h]
  · simp [handle_device_discovery, dget, h2, Value.truthy]

/-- C10 witness: device_id bound to the empty string, and device_id absent,
are both no-ops on a concrete registry. -/
theorem c10_falsy_device_id_witness :
    handle_device_discovery "t0" [] "smarthome/discovery/a"
        [("device_id", .str ""), ("type", .str "light")] = ([], []) ∧
    handle_device_discovery "t0" [] "smarthome/discovery/a"
        [("type", .str "light")] = ([], []) :=
  c10_falsy_device_id "t0" [] "smarthome/discovery/a"
    [("device_id", .str ""), ("type", .str "light")] [("type", .str "light")]
    (by decide) (by decide)

theorem alookup_eq_none_not_mem {α β : Type} [DecidableEq α] (d : List (α × β)) (k : α)
    (h : alookup d k = none) : k ∉ d.map Prod.fst := by
  induction d with
  | nil => simp
  | cons kv rest ih =>
      obtain ⟨k1, v1⟩ := kv
      by_cases hk : k1 = k
      · simp [alookup, hk] at h
      · simp only [alookup, if_neg hk] at h
        simp only [List.map_cons, List.mem_cons, not_or]
        exact ⟨fun hh => hk hh.symm, ih h⟩

/-- C2: a discovery payload carrying a (truthy) device_id that is not yet a
key of the registry creates exactly one record for that id, leaves every
other key unchanged and issues exactly one per-device wildcard
subscription; any subsequent discovery payload carrying the same device_id
leaves the registry (in particular the first record) unchanged and issues
no second subscription. -/
theorem c2_discovery_once (now now2 : String) (devices : List (Value × DeviceRecord))
    (topic topic2 : String) (payload payload2 : PyDict)
    (htruthy : (dget payload "device_id").truthy = true)
    (hfresh : alookup devices (dget payload "device_id") = none) :
    alookup (handle_device_discovery now devices topic payload).1 (dget payload "device_id") =
      some ⟨dget payload "device_id", dget payload "type", dget payload "name",
            (alookup payload "capabilities").getD .vnil,
            dget payload "manufacturer", dget payload "model",
            dget payload "firmware_version", .str now, .bool true, [],
            .null, .null, .null⟩ ∧
    (∀ k, k ≠ dget payload "device_id" →
      alookup (handle_device_discovery now devices topic payload).1 k = alookup devices k) ∧
    (handle_device_discovery now devices topic payload).2 =
      ["smarthome/devices/" ++ pyStr (dget payload "device_id") ++ "/#"] ∧
    (dget payload2 "device_id" = dget payload "device_id" →
      handle_device_discovery now2 (handle_device_discovery now devices topic payload).1
          topic2 payload2 =
        ((handle_device_discovery now devices topic payload).1, [])) := by
  have h1 : handle_device_discovery now devices topic payload =
      (aset devices (dget payload "device_id")
        ⟨dget payload "device_id", dget payload "type", dget payload "name",
         (alookup payload "capabilities").getD .vnil,
         dget payload "manufacturer", dget payload "model",
         dget payload "firmware_version", .str now, .bool true, [],
         .null, .null, .null⟩,
       ["smarthome/devices/" ++ pyStr (dget payload "device_id") ++ "/#"]) := by
    simp [handle_device_discovery, htruthy, hfresh]
  refine ⟨?_, ?_, ?_, ?_⟩
  · rw [h1]
    exact alookup_aset_self _ _ _
  · intro k hk
    rw [h1]
    exact alookup_aset_ne _ _ _ _ hk
  · rw [h1]
  · intro hsame
    rw [h1]
    simp [handle_device_discovery, hsame, htruthy, alookup_aset_self]

/-- C2 witness: discovering d1 on an empty registry creates its record and
one wildcard subscription; a second discovery for d1 is a no-op with no
subscription. -/
theorem c2_discovery_once_witness :
    alookup (handle_device_discovery "t1" [] "smarthome/discovery/x"
        [("device_id", .str "d1"), ("type", .str "light"), ("name", .str "Lamp")]).1
        (.str "d1") =
      some ⟨.str "d1", .str "light", .str "Lamp", .vnil, .null, .null, .null,
            .str "t1", .bool true, [], .null, .null, .null⟩ ∧
    alookup (handle_device_discovery "t1" [] "smarthome/discovery/x"
        [("device_id", .str "d1"), ("type", .str "light"), ("name", .str "Lamp")]).1
        (.str "d2") = none ∧
    (handle_device_discovery "t1" [] "smarthome/discovery/x"
        [("device_id", .str "d1"), ("type", .str "light"), ("name", .str "Lamp")]).2 =
      ["smarthome/devices/d1/#"] ∧
    handle_device_discovery "t2"
        (handle_device_discovery "t1" [] "smarthome/discovery/x"
          [("device_id", .str "d1"), ("type", .str "light"), ("name", .str "Lamp")]).1
        "smarthome/discovery/y" [("device_id", .str "d1"), ("name", .str "Other")] =
      ((handle_device_discovery "t1" [] "smarthome/discovery/x"
          [("device_id", .str "d1"), ("type", .str "light"), ("name", .str "Lamp")]).1,
       []) := by
  have h := c2_discovery_once "t1" "t2" [] "smarthome/discovery/x" "smarthome/discovery/y"
    [("device_id", .str "d1"), ("type", .str "light"), ("name", .str "Lamp")]
    [("device_id", .str "d1"), ("name", .str "Other")] (by decide) rfl
  exact ⟨h.1, h.2.1 (.str "d2") (by decide), h.2.2.1, h.2.2.2 rfl⟩

/-- C3: a state-update addressed to a registered id replaces that record by
one whose state is the key-wise merge of the old state with the payload
(every payload pair upserted, every unmentioned key kept) and whose
last_update is the current time, all other fields and all other records
unchanged; addressed to an unknown id, the registry is unchanged. -/
theorem c3_state_update_merge (now : String) (devices : List (Value × DeviceRecord))
    (did : String) (payload : PyDict)
    (hnd : (payload.map Prod.fst).Nodup) :
    (∀ rec, alookup devices (.str did) = some rec →
      alookup (handle_device_state_update now devices did payload) (.str did) =
        some ⟨rec.id, rec.type, rec.name, rec.capabilities, rec.manufacturer, rec.model,
              rec.firmware_version, rec.discovered_at, rec.online,
              dupdate rec.state payload, rec.battery, rec.signal_strength, .str now⟩ ∧
      (∀ k v, alookup payload k = some v → alookup (dupdate rec.state payload) k = some v) ∧
      (∀ k, alookup payload k = none →
        alookup (dupdate rec.state payload) k = alookup rec.state k) ∧
      (∀ k, k ≠ .str did →
        alookup (handle_device_state_update now devices did payload) k = alookup devices k)) ∧
    (alookup devices (.str did) = none →
      handle_device_state_update now devices did payload = devices) := by
  constructor
  · intro rec h
    refine ⟨?_, ?_, ?_, ?_⟩
    · simp only [handle_device_state_update, h]
      exact alookup_aset_self _ _ _
    · intro k v hv
      exact alookup_dupdate_mem payload rec.state k v hnd hv
    · intro k hk
      exact alookup_dupdate_not_mem payload rec.state k (alookup_eq_none_not_mem payload k hk)
    · intro k hk
      simp only [handle_device_state_update, h]
      exact alookup_aset_ne _ _ _ _ hk
  · intro h
    simp [handle_device_state_update, h]

/-- C3 witness: updating state of registered d1 merges the payload key and
keeps the unmentioned key; the record of an unknown id d9 is untouched and
other keys unaffected. -/
theorem c3_state_update_merge_witness :
    alookup (handle_device_state_update "t2"
        [((.str "d1"),
          ⟨.str "d1", .str "light", .str "Lamp", .vnil, .null, .null, .null,
           .str "t1", .bool true, [("temp", .int 20)], .null, .null, .null⟩)]
        "d1" [("on", .bool true)]) (.str "d1") =
      some ⟨.str "d1", .str "light", .str "Lamp", .vnil, .null, .null, .null,
            .str "t1", .bool true, [("temp", .int 20), ("on", .bool true)],
            .null, .null, .str "t2"⟩ ∧
    alookup (dupdate [("temp", .int 20)] [("on", .bool true)]) "on" = some (.bool true) ∧
    alookup (dupdate [("temp", .int 20)] [("on", .bool true)]) "temp" =
      alookup [("temp", .int 20)] "temp" ∧
    alookup (handle_device_state_update "t2"
        [((.str "d1"),
          ⟨.str "d1", .str "light", .str "Lamp", .vnil, .null, .null, .null,
           .str "t1", .bool true, [("temp", .int 20)], .null, .null, .null⟩)]
        "d1" [("on", .bool true)]) (.str "d2") = none ∧
    handle_device_state_update "t2"
        [((.str "d1"),
          ⟨.str "d1", .str "light", .str "Lamp", .vnil, .null, .null, .null,
           .str "t1", .bool true, [("temp", .int 20)], .null, .null, .null⟩)]
        "d9" [("on", .bool true)] =
      [((.str "d1"),
        ⟨.str "d1", .str "light", .str "Lamp", .vnil, .null, .null, .null,
         .str "t1", .bool true, [("temp", .int 20)], .null, .null, .null⟩)] := by
  have h := c3_state_update_merge "t2"
    [((.str "d1"),
      ⟨.str "d1", .str "light", .str "Lamp", .vnil, .null, .null, .null,
       .str "t1", .bool true, [("temp", .int 20)], .null, .null, .null⟩)]
    "d1" [("on", .bool true)] (by decide)
  have h9 := c3_state_update_merge "t2"
    [((.str "d1"),
      ⟨.str "d1", .str "light", .str "Lamp", .vnil, .null, .null, .null,
       .str "t1", .bool true, [("temp", .int 20)], .null, .null, .null⟩)]
    "d9" [("on", .bool true)] (by decide)
  obtain ⟨h1, h2, h3, h4⟩ := h.1 _ rfl
  exact ⟨h1, h2 "on" (.bool true) rfl, h3 "temp" rfl, h4 (.str "d2") (by decide), h9.2 rfl⟩

/-- C4: a status event for a registered id wholesale-replaces online
(default false when absent), battery and signal_strength (the embedded
None/absent value when absent) of that record, keeping every other field
(in particular state) and every other record unchanged; for an unknown id
the registry is unchanged. -/
theorem c4_status_replace (devices : List (Value × DeviceRecord))
    (did : String) (payload : PyDict) :
    (∀ rec, alookup devices (.str did) = some rec →
      alookup (handle_device_status devices did payload) (.str did) =
        some ⟨rec.id, rec.type, rec.name, rec.capabilities, rec.manufacturer, rec.model,
              rec.firmware_version, rec.discovered_at,
              dgetD payload "online" (.bool false), rec.state,
              dget payload "battery", dget payload "signal_strength",
              rec.last_update⟩ ∧
      (alookup payload "online" = none → dgetD payload "online" (.bool false) = .bool false) ∧
      (alookup payload "battery" = none → dget payload "battery" = .null) ∧
      (alookup payload "signal_strength" = none → dget payload "signal_strength" = .null) ∧
      (∀ k, k ≠ .str did →
        alookup (handle_device_status devices did payload) k = alookup devices k)) ∧
    (alookup devices (.str did) = none →
      handle_device_status devices did payload = devices) := by
  constructor
  · intro rec h
    refine ⟨?_, ?_, ?_, ?_, ?_⟩
    · simp only [handle_device_status, h]
      exact alookup_aset_self _ _ _
    · intro hh
      simp [dgetD, hh]
    · intro hh
      simp [dget, hh]
    · intro hh
      simp [dget, hh]
    · intro k hk
      simp only [handle_device_status, h]
      exact alookup_aset_ne _ _ _ _ hk
  · intro h
    simp [handle_device_status, h]

/-- C4 witness: status (online false, battery 42) on registered d1 replaces
the three status fields (signal_strength becoming None), keeps state and
the other record keys; unknown id d9 is a no-op. -/
theorem c4_status_replace_witness :
    alookup (handle_device_status
        [((.str "d1"),
          ⟨.str "d1", .str "light", .str "Lamp", .vnil, .null, .null, .null,
           .str "t1", .bool true, [("on", .bool true)], .int 10, .null, .null⟩)]
        "d1" [("online", .bool false), ("battery", .int 42)]) (.str "d1") =
      some ⟨.str "d1", .str "light", .str "Lamp", .vnil, .null, .null, .null,
            .str "t1", .bool false, [("on", .bool true)], .int 42, .null, .null⟩ ∧
    alookup (handle_device_status
        [((.str "d1"),
          ⟨.str "d1", .str "light", .str "Lamp", .vnil, .null, .null, .null,
           .str "t1", .bool true, [("on", .bool true)], .int 10, .null, .null⟩)]
        "d1" [("online", .bool false), ("battery", .int 42)]) (.str "d2") = none ∧
    handle_device_status
        [((.str "d1"),
          ⟨.str "d1", .str "light", .str "Lamp", .vnil, .null, .null, .null,
           .str "t1", .bool true, [("on", .bool true)], .int 10, .null, .null⟩)]
        "d9" [("online", .bool false), ("battery", .int 42)] =
      [((.str "d1"),
        ⟨.str "d1", .str "light", .str "Lamp", .vnil, .null, .null, .null,
         .str "t1", .bool true, [("on", .bool true)], .int 10, .null, .null⟩)] := by
  have h := c4_status_replace
    [((.str "d1"),
      ⟨.str "d1", .str "light", .str "Lamp", .vnil, .null, .null, .null,
       .str "t1", .bool true, [("on", .bool true)], .int 10, .null, .null⟩)]
    "d1" [("online", .bool false), ("battery", .int 42)]
  have h9 := c4_status_replace
    [((.str "d1"),
      ⟨.str "d1", .str "light", .str "Lamp", .vnil, .null, .null, .null,
       .str "t1", .bool true, [("on", .bool true)], .int 10, .null, .null⟩)]
    "d9" [("online", .bool false), ("battery", .int 42)]
  obtain ⟨h1, _, _, _, h5⟩ := h.1 _ rfl
  exact ⟨h1, h5 (.str "d2") (by decide), h9.2 rfl⟩

theorem runBuiltin_callbacks (now : String) (st : AggState) (topic : String)
    (payload : PyDict) (st2 : AggState) (subs : List String)
    (h : runBuiltin now st topic payload = some (st2, subs)) :
    st2.callbacks = st.callbacks := by
  unfold runBuiltin at h
  cases hc : classify topic
  case discovery =>
      rw [hc] at h
      simp only [Option.some.injEq, Prod.mk.injEq] at h
      rw [← h.1]
  case stateUpdate did =>
      rw [hc] at h
      cases did with
      | none => cases h
      | some d =>
          simp only [Option.some.injEq, Prod.mk.injEq] at h
          rw [← h.1]
  case statusUpdate did =>
      rw [hc] at h
      cases did with
      | none => cases h
      | some d =>
          simp only [Option.some.injEq, Prod.mk.injEq] at h
          rw [← h.1]
  case other =>
      rw [hc] at h
      simp only [Option.some.injEq, Prod.mk.injEq] at h
      rw [← h.1]

theorem runCallbacks_ok (cbs : List Callback) (topic : String) (payload : PyDict)
    (h : ∀ c ∈ cbs, c.fails topic payload = false) :
    runCallbacks cbs topic payload =
      (cbs.map (fun c => (c.cid, topic, payload)), false) := by
  induction cbs with
  | nil => rfl
  | cons c rest ih =>
      have hc := h c (List.mem_cons_self c rest)
      simp [runCallbacks, hc, ih (fun c2 hc2 => h c2 (List.mem_cons_of_mem _ hc2))]

theorem runCallbacks_fail (pre : List Callback) (c : Callback) (post : List Callback)
    (topic : String) (payload : PyDict)
    (hpre : ∀ c2 ∈ pre, c2.fails topic payload = false)
    (hc : c.fails topic payload = true) :
    runCallbacks (pre ++ c :: post) topic payload =
      ((pre ++ [c]).map (fun c2 => (c2.cid, topic, payload)), true) := by
  induction pre with
  | nil => simp [runCallbacks, hc]
  | cons p rest ih =>
      have hp := hpre p (List.mem_cons_self p rest)
      simp [runCallbacks, hp, ih (fun c2 h2 => hpre c2 (List.mem_cons_of_mem _ h2))]

/-- C6 counterexample: the registry state has one non-raising callback
registered for the exact topic "a/state" and the payload parses, yet
processing the event invokes no callback at all: the topic ends in the
state suffix but has no third slash-delimited segment, so the device id
extraction raises and the except block skips callback dispatch. -/
theorem c6_counterexample :
    alookup (AggState.mk [] [("a/state", [⟨1, fun _ _ => false⟩])]).callbacks "a/state" =
      some [⟨1, fun _ _ => false⟩] ∧
    (on_message "t0" ⟨[], [("a/state", [⟨1, fun _ _ => false⟩])]⟩ "a/state"
      (some [])).calls = [] ∧
    (on_message "t0" ⟨[], [("a/state", [⟨1, fun _ _ => false⟩])]⟩ "a/state"
      (some [])).caught = true :=
  ⟨rfl, rfl, rfl⟩

/-- C6 (amended): for an event whose payload parses and whose built-in
handling phase raises no exception, if the exact topic has registered
callbacks and none of them raises, every registered callback is invoked in
registration order with (topic, parsed payload); repeated registrations are
each invoked, since subscribe_to_topic appends without deduplication. -/
theorem c6_callback_dispatch (now : String) (st : AggState) (topic : String)
    (payload : PyDict) (st2 : AggState) (subs : List String) (cbs : List Callback)
    (hb : runBuiltin now st topic payload = some (st2, subs))
    (hcb : alookup st.callbacks topic = some cbs)
    (hok : ∀ c ∈ cbs, c.fails topic payload = false) :
    (on_message now st topic (some payload)).calls =
      cbs.map (fun c => (c.cid, topic, payload)) ∧
    (on_message now st topic (some payload)).caught = false ∧
    (∀ (st3 : AggState) (t : String) (c : Callback),
      alookup (subscribe_to_topic st3 t c).1.callbacks t =
        some (((alookup st3.callbacks t).getD []) ++ [c])) := by
  have hcb2 : alookup st2.callbacks topic = some cbs := by
    rw [runBuiltin_callbacks now st topic payload st2 subs hb]
    exact hcb
  have hrc := runCallbacks_ok cbs topic payload hok
  refine ⟨?_, ?_, ?_⟩
  · simp [on_message, hb, hcb2, hrc]
  · simp [on_message, hb, hcb2, hrc]
  · intro st3 t c
    cases hl : alookup st3.callbacks t with
    | none => simp [subscribe_to_topic, hl, alookup_aset_self]
    | some l => simp [subscribe_to_topic, hl, alookup_aset_self]

/-- C6 witness: on a custom topic, two identical registrations are both
invoked, in order, with (topic, payload), and nothing is caught. -/
theorem c6_callback_dispatch_witness :
    (on_message "t0" ⟨[], [("t", [⟨5, fun _ _ => false⟩, ⟨5, fun _ _ => false⟩])]⟩
      "t" (some [("k", .int 1)])).calls =
      [(5, "t", [("k", .int 1)]), (5, "t", [("k", .int 1)])] ∧
    (on_message "t0" ⟨[], [("t", [⟨5, fun _ _ => false⟩, ⟨5, fun _ _ => false⟩])]⟩
      "t" (some [("k", .int 1)])).caught = false ∧
    alookup (subscribe_to_topic ⟨[], []⟩ "t" ⟨5, fun _ _ => false⟩).1.callbacks "t" =
      some (((alookup (AggState.mk [] []).callbacks "t").getD []) ++ [⟨5, fun _ _ => false⟩]) := by
  have h := c6_callback_dispatch "t0"
    ⟨[], [("t", [⟨5, fun _ _ => false⟩, ⟨5, fun _ _ => false⟩])]⟩ "t" [("k", .int 1)]
    ⟨[], [("t", [⟨5, fun _ _ => false⟩, ⟨5, fun _ _ => false⟩])]⟩ []
    [⟨5, fun _ _ => false⟩, ⟨5, fun _ _ => false⟩]
    rfl rfl (by intro c hc; fin_cases hc <;> rfl)
  exact ⟨h.1, h.2.1, h.2.2 ⟨[], []⟩ "t" ⟨5, fun _ _ => false⟩⟩

/-- C7 counterexample: a callback that raises is caught by the aggregator
(the except block of the message handler runs, the error does not propagate
to the transport layer): on a concrete state with one raising callback the
callback is invoked and the exception is recorded as caught. -/
theorem c7_counterexample :
    (on_message "t0" ⟨[], [("t", [⟨7, fun _ _ => true⟩])]⟩ "t" (some [])).caught = true ∧
    (on_message "t0" ⟨[], [("t", [⟨7, fun _ _ => true⟩])]⟩ "t" (some [])).calls =
      [(7, "t", [])] :=
  ⟨rfl, rfl⟩

/-- C7 (amended): an error raised by a registered callback is caught by the
try/except wrapping the whole message handler: it does not propagate to the
transport layer; the callbacks registered after the raising one are skipped
for that event, and the state produced by the built-in handler phase is
kept. -/
theorem c7_callback_error_caught (now : String) (st : AggState) (topic : String)
    (payload : PyDict) (st2 : AggState) (subs : List String)
    (pre post : List Callback) (c : Callback)
    (hb : runBuiltin now st topic payload = some (st2, subs))
    (hcb : alookup st.callbacks topic = some (pre ++ c :: post))
    (hpre : ∀ c2 ∈ pre, c2.fails topic payload = false)
    (hc : c.fails topic payload = true) :
    (on_message now st topic (some payload)).caught = true ∧
    (on_message now st topic (some payload)).calls =
      (pre ++ [c]).map (fun c2 => (c2.cid, topic, payload)) ∧
    (on_message now st topic (some payload)).state = st2 := by
  have hcb2 : alookup st2.callbacks topic = some (pre ++ c :: post) := by
    rw [runBuiltin_callbacks now st topic payload st2 subs hb]
    exact hcb
  have hrc := runCallbacks_fail pre c post topic payload hpre hc
  refine ⟨by simp [on_message, hb, hcb2, hrc], by simp [on_message, hb, hcb2, hrc],
    by simp [on_message, hb, hcb2, hrc]⟩

/-- C7 witness: with callbacks tagged 1 (ok), 2 (raises), 3 (ok) registered
on a custom topic, processing invokes 1 and 2, skips 3, and the error is
caught. -/
theorem c7_callback_error_caught_witness :
    (on_message "t0"
      ⟨[], [("t", [⟨1, fun _ _ => false⟩, ⟨2, fun _ _ => true⟩, ⟨3, fun _ _ => false⟩])]⟩
      "t" (some [])).caught = true ∧
    (on_message "t0"
      ⟨[], [("t", [⟨1, fun _ _ => false⟩, ⟨2, fun _ _ => true⟩, ⟨3, fun _ _ => false⟩])]⟩
      "t" (some [])).calls = [(1, "t", []), (2, "t", [])] ∧
    (on_message "t0"
      ⟨[], [("t", [⟨1, fun _ _ => false⟩, ⟨2, fun _ _ => true⟩, ⟨3, fun _ _ => false⟩])]⟩
      "t" (some [])).state =
      ⟨[], [("t", [⟨1, fun _ _ => false⟩, ⟨2, fun _ _ => true⟩, ⟨3, fun _ _ => false⟩])]⟩ := by
  have h := c7_callback_error_caught "t0"
    ⟨[], [("t", [⟨1, fun _ _ => false⟩, ⟨2, fun _ _ => true⟩, ⟨3, fun _ _ => false⟩])]⟩
    "t" []
    ⟨[], [("t", [⟨1, fun _ _ => false⟩, ⟨2, fun _ _ => true⟩, ⟨3, fun _ _ => false⟩])]⟩ []
    [⟨1, fun _ _ => false⟩] [⟨3, fun _ _ => false⟩] ⟨2, fun _ _ => true⟩
    rfl rfl (by intro c2 hc2; fin_cases hc2; rfl) rfl
  exact ⟨h.1, h.2.1, h.2.2⟩

theorem handle_discovery_keys (now : String) (devices : List (Value × DeviceRecord))
    (topic : String) (payload : PyDict) (k : Value)
    (h : (alookup devices k).isSome = true) :
    (alookup (handle_device_discovery now devices topic payload).1 k).isSome = true := by
  unfold handle_device_discovery
  dsimp only
  split
  · exact alookup_aset_isSome _ _ _ _ h
  · exact h

theorem handle_state_keys (now : String) (devices : List (Value × DeviceRecord))
    (did : String) (payload : PyDict) (k : Value)
    (h : (alookup devices k).isSome = true) :
    (alookup (handle_device_state_update now devices did payload) k).isSome = true := by
  unfold handle_device_state_update
  split
  · exact alookup_aset_isSome _ _ _ _ h
  · exact h

theorem handle_status_keys (devices : List (Value × DeviceRecord))
    (did : String) (payload : PyDict) (k : Value)
    (h : (alookup devices k).isSome = true) :
    (alookup (handle_device_status devices did payload) k).isSome = true := by
  unfold handle_device_status
  split
  · exact alookup_aset_isSome _ _ _ _ h
  · exact h

theorem runBuiltin_keys (now : String) (st : AggState) (topic : String)
    (payload : PyDict) (st2 : AggState) (subs : List String)
    (hb : runBuiltin now st topic payload = some (st2, subs)) (k : Value)
    (h : (alookup st.devices k).isSome = true) :
    (alookup st2.devices k).isSome = true := by
  unfold runBuiltin at hb
  cases hc : classify topic
  case discovery =>
      rw [hc] at hb
      simp only [Option.some.injEq, Prod.mk.injEq] at hb
      rw [← hb.1]
      exact handle_discovery_keys now st.devices topic payload k h
  case stateUpdate did =>
      rw [hc] at hb
      cases did with
      | none => cases hb
      | some d =>
          simp only [Option.some.injEq, Prod.mk.injEq] at hb
          rw [← hb.1]
          exact handle_state_keys now st.devices d payload k h
  case statusUpdate did =>
      rw [hc] at hb
      cases did with
      | none => cases hb
      | some d =>
          simp only [Option.some.injEq, Prod.mk.injEq] at hb
          rw [← hb.1]
          exact handle_status_keys st.devices d payload k h
  case other =>
      rw [hc] at hb
      simp only [Option.some.injEq, Prod.mk.injEq] at hb
      rw [← hb.1]
      exact h

theorem on_message_keys (now : String) (st : AggState) (topic : String)
    (raw : Option PyDict) (k : Value)
    (h : (alookup st.devices k).isSome = true) :
    (alookup (on_message now st topic raw).state.devices k).isSome = true := by
  unfold on_message
  cases raw with
  | none => exact h
  | some payload =>
      dsimp only
      cases hb : runBuiltin now st topic payload with
      | none =>
          simp only [hb]
          exact h
      | some p =>
          obtain ⟨st2, subs⟩ := p
          have h2 := runBuiltin_keys now st topic payload st2 subs hb k h
          simp only [hb]
          cases hl : alookup st2.callbacks topic with
          | none =>
              simp only [hl]
              exact h2
          | some cbs =>
              simp only [hl]
              exact h2

theorem processEvents_keys (events : List Event) (st : AggState) (k : Value)
    (h : (alookup st.devices k).isSome = true) :
    (alookup (processEvents st events).1.devices k).isSome = true := by
  induction events generalizing st with
  | nil => exact h
  | cons e rest ih =>
      exact ih (on_message e.now st e.topic e.raw).state
        (on_message_keys e.now st e.topic e.raw k h)

/-- C9: no operation of the aggregator ever removes a key from the device
registry: message handling of any event (and of any event stream) can only
extend the key set, and every command, scene, automation, energy,
subscription or getter operation leaves the registry untouched. -/
theorem c9_registry_keys_monotone :
    (∀ (now : String) (st : AggState) (topic : String) (raw : Option PyDict) (k : Value),
      (alookup st.devices k).isSome = true →
      (alookup (on_message now st topic raw).state.devices k).isSome = true) ∧
    (∀ (st : AggState) (events : List Event) (k : Value),
      (alookup st.devices k).isSome = true →
      (alookup (processEvents st events).1.devices k).isSome = true) ∧
    (∀ (st : AggState) (topic : String) (c : Callback),
      (subscribe_to_topic st topic c).1.devices = st.devices) ∧
    (∀ (now : String) (st : AggState) (id cmd prm : Value),
      (control_device now st id cmd prm).1 = st) ∧
    (∀ (now : String) (st : AggState) (id : Value), (turn_on now st id).1 = st) ∧
    (∀ (now : String) (st : AggState) (id : Value), (turn_off now st id).1 = st) ∧
    (∀ (now : String) (st : AggState) (id b : Value), (set_brightness now st id b).1 = st) ∧
    (∀ (now : String) (st : AggState) (id c : Value), (set_color now st id c).1 = st) ∧
    (∀ (now : String) (st : AggState) (id t : Value), (set_temperature now st id t).1 = st) ∧
    (∀ (now : String) (st : AggState) (id : Value), (lock now st id).1 = st) ∧
    (∀ (now : String) (st : AggState) (id : Value), (unlock now st id).1 = st) ∧
    (∀ (now : String) (st : AggState) (n ds : Value), (create_scene now st n ds).1 = st) ∧
    (∀ (now : String) (st : AggState) (n : Value), (activate_scene now st n).1 = st) ∧
    (∀ (now : String) (st : AggState) (n tr co ac : Value),
      (create_automation now st n tr co ac).1 = st) ∧
    (∀ (now : String) (st : AggState) (id : Value), (get_energy_usage now st id).1 = st) := by
  refine ⟨on_message_keys, fun st events => processEvents_keys events st, ?_, ?_, ?_, ?_,
    ?_, ?_, ?_, ?_, ?_, ?_, ?_, ?_, ?_⟩
  · intro st topic c
    unfold subscribe_to_topic
    split <;> rfl
  all_goals intros
  all_goals simp only [turn_on, turn_off, set_brightness, set_color, set_temperature,
    lock, unlock, control_device, create_scene, activate_scene, create_automation,
    get_energy_usage]
  all_goals first
    | rfl
    | (split <;> rfl)

/-- C9 witness: a discovery event for a fresh id keeps the existing key,
and the command path leaves a concrete registry untouched. -/
theorem c9_registry_keys_monotone_witness :
    (alookup (on_message "t0"
        ⟨[((.str "d1"),
           ⟨.str "d1", .str "light", .null, .vnil, .null, .null, .null, .str "t0",
            .bool true, [], .null, .null, .null⟩)], []⟩
        "smarthome/discovery/x" (some [("device_id", .str "d2")])).state.devices
      (.str "d1")).isSome = true ∧
    (control_device "t1"
        ⟨[((.str "d1"),
           ⟨.str "d1", .str "light", .null, .vnil, .null, .null, .null, .str "t0",
            .bool true, [], .null, .null, .null⟩)], []⟩
        (.str "d9") (.str "turn_on") .null).1 =
      ⟨[((.str "d1"),
         ⟨.str "d1", .str "light", .null, .vnil, .null, .null, .null, .str "t0",
          .bool true, [], .null, .null, .null⟩)], []⟩ := by
  have h := c9_registry_keys_monotone
  exact ⟨h.1 "t0"
      ⟨[((.str "d1"),
         ⟨.str "d1", .str "light", .null, .vnil, .null, .null, .null, .str "t0",
          .bool true, [], .null, .null, .null⟩)], []⟩
      "smarthome/discovery/x" (some [("device_id", .str "d2")]) (.str "d1") rfl,
    h.2.2.2.1 "t1"
      ⟨[((.str "d1"),
         ⟨.str "d1", .str "light", .null, .vnil, .null, .null, .null, .str "t0",
          .bool true, [], .null, .null, .null⟩)], []⟩
      (.str "d9") (.str "turn_on") .null⟩
